import Mathlib

/-!
Shallow embedding of the AR_Pathfinder navigation backend
(`dira_backend/navigation/`): the DEM terrain gate, the Gemini
navigation service, and the `analyze_frame` view, together with the
pure geodesy helpers, and proofs of the behavioural claims about them.

External collaborators (the Mapbox tile fetch, the Gemini model call,
the PostGIS waypoint store, the Django cache backend) are modelled as
explicit oracle parameters; everything else is translated directly
from the Python source.
-/

namespace ARPathfinder

/-! ### Python-level numeric helpers

Python 3 `round` uses round-half-to-even; `int()` truncates toward
zero; `%` with a positive modulus returns a value in `[0, modulus)`.
We model float arithmetic with exact rationals. -/

/-- Python `round(q)` (round half to even) on a rational. -/
def pyRound (q : ℚ) : ℤ :=
  let f := ⌊q⌋
  let r := q - (f : ℚ)
  if r < 1/2 then f
  else if 1/2 < r then f + 1
  else if f % 2 = 0 then f else f + 1

/-- Python `round(q, n)`: round to `n` decimal digits, half to even. -/
def pyRoundTo (n : ℕ) (q : ℚ) : ℚ := (pyRound (q * (10 : ℚ) ^ n) : ℚ) / (10 : ℚ) ^ n

/-- Python `int(q)`: truncation toward zero. -/
def pyInt (q : ℚ) : ℤ := if 0 ≤ q then ⌊q⌋ else -⌊-q⌋

/-- Python `a % b` for rationals, `b > 0`: result in `[0, b)`. -/
def pymod (a b : ℚ) : ℚ := a - b * ⌊a / b⌋

/-- Python truthiness of an optional string (`None` and `""` are falsy). -/
def pyTruthy : Option String → Bool
  | none => false
  | some s => !s.isEmpty

/-- Python `a or b` for an optional string `a` and a string `b`. -/
def pyOrElse (a : Option String) (b : String) : String :=
  match a with
  | some s => if s.isEmpty then b else s
  | none => b

/-- Maximum of a Python list (`max(xs)`, `xs` nonempty; 0 on `[]`, unreachable). -/
def listMax : List ℚ → ℚ
  | [] => 0
  | x :: xs => xs.foldl max x

/-- Minimum of a Python list (`min(xs)`, `xs` nonempty; 0 on `[]`, unreachable). -/
def listMin : List ℚ → ℚ
  | [] => 0
  | x :: xs => xs.foldl min x

/-! ### DEM service (`navigation/dem_service.py`)

`DEMService.get_elevation` fetches one Mapbox Terrain-RGB tile and
decodes one pixel.  The network fetch and the image decode are the
external terrain lookup; we model their outcome as a `TileResult`
oracle value.  The lat/lon→tile/pixel conversion only selects which
external datum is read, so it is absorbed into the oracle. -/

/-- Outcome of the external Terrain-RGB tile fetch for one lookup:
either the HTTP layer raised, or it returned a status code together
with the (possibly failing) decode of the addressed RGB pixel. -/
inductive TileResult where
  | raise (msg : String)
  | status (code : ℕ) (pixel : Except String (ℕ × ℕ × ℕ))

/-- `DEMService.get_elevation`: returns `0.0` when `MAPBOX_ACCESS_TOKEN`
is not configured, when the tile response status is not 200, or when
the fetch/decode raises; otherwise decodes the elevation as
`-10000 + ((R * 256 * 256 + G * 256 + B) * 0.1)`. -/
def get_elevation (hasToken : Bool) (tile : TileResult) : ℚ :=
  if !hasToken then 0
  else
    match tile with
    | .raise _ => 0
    | .status code pixel =>
      if code ≠ 200 then 0
      else
        match pixel with
        | .error _ => 0
        | .ok (r, g, b) => -10000 + ((r : ℚ) * 256 * 256 + (g : ℚ) * 256 + (b : ℚ)) * (1/10)

/-- `DEMService.get_terrain_variation`: samples five elevations in a
cross pattern (center and ±`radius_m * (1/111000)` degrees along each
axis) and returns `max - min`.  The elevation lookup is passed as a
function `elev`; note `get_elevation` is total (it catches all of its
own failures), so the source's `except` clause returning `1000.0`
("assume complex terrain on error") is unreachable for lookup
failures and is not exercised here. -/
def get_terrain_variation (elev : ℚ → ℚ → ℚ) (lat lon radius_m : ℚ) : ℚ :=
  let deg_per_m : ℚ := 1 / 111000
  let offset_deg := radius_m * deg_per_m
  let elevations := [elev lat lon,
                     elev (lat + offset_deg) lon,
                     elev (lat - offset_deg) lon,
                     elev lat (lon + offset_deg),
                     elev lat (lon - offset_deg)]
  listMax elevations - listMin elevations

/-- Reason string returned by `should_skip_gemini_analysis`
(the Python f-string is abstracted to its payload). -/
inductive SkipReason where
  | flat_terrain (variation : ℚ)
  | complex_terrain
deriving DecidableEq

/-- `should_skip_gemini_analysis`: skips Gemini when the terrain
variation within a 5 km radius is below 100 m. -/
def should_skip_gemini_analysis (elev : ℚ → ℚ → ℚ) (lat lon : ℚ) : Bool × SkipReason :=
  let variation := get_terrain_variation elev lat lon 5000
  if variation < 100 then (true, .flat_terrain variation)
  else (false, .complex_terrain)

/-! ### Claims about the DEM service -/

/-- C3: `DEMService.get_elevation` returns `0.0` on every failure mode
(no access token, non-200 status, fetch exception, pixel decode
exception), and a genuine successful lookup can also decode to `0.0`
(pixel (1,134,160) is exactly sea level), so a failed lookup is
indistinguishable from a genuine sea-level reading. -/
theorem get_elevation_failure_returns_zero :
    (∀ tile : TileResult, get_elevation false tile = 0) ∧
    (∀ msg : String, get_elevation true (.raise msg) = 0) ∧
    (∀ (code : ℕ) (pixel : Except String (ℕ × ℕ × ℕ)),
      code ≠ 200 → get_elevation true (.status code pixel) = 0) ∧
    (∀ msg : String, get_elevation true (.status 200 (.error msg)) = 0) ∧
    get_elevation true (.status 200 (.ok (1, 134, 160))) = 0 := by
  refine ⟨fun tile => ?_, fun msg => rfl, fun code pixel h => ?_, fun msg => rfl, by norm_num [get_elevation]⟩
  · cases tile <;> rfl
  · simp only [get_elevation, Bool.not_true, Bool.false_eq_true, if_false]
    rw [if_pos h]

/-- Witness for C3 at a concrete failed lookup (HTTP 404). -/
theorem get_elevation_failure_returns_zero_witness :
    get_elevation true (.status 404 (.ok (0, 0, 0))) = 0 :=
  get_elevation_failure_returns_zero.2.2.1 404 (.ok (0, 0, 0)) (by decide)

/-- C2 (code bug): when every one of the five elevation lookups fails,
each returns `0.0` (never raising), so the sampled variation is `0`
and `should_skip_gemini_analysis` returns `skip = true` — the gate
fails OPEN, not closed as the spec (and the source's own
"assume complex terrain on error" comment) demand. -/
theorem gate_skips_when_all_lookups_fail :
    ∀ lat lon : ℚ,
      should_skip_gemini_analysis
        (fun _ _ => get_elevation false (.raise "no MAPBOX_ACCESS_TOKEN")) lat lon =
      (true, .flat_terrain 0) := by
  intro lat lon
  with_unfolding_all rfl

/-- C7: the terrain gate samples the center and four offsets of
±radius·(1/111000) degrees (radius 5000 m), and skips iff
`max(samples) - min(samples) < 100`; flat samples `[100,100,100,100,100]`
give skip = true, and `[100,300,100,100,100]` give skip = false. -/
theorem terrain_gate_threshold :
    (∀ (elev : ℚ → ℚ → ℚ) (lat lon : ℚ),
      (should_skip_gemini_analysis elev lat lon).1 = true ↔
        listMax [elev lat lon,
                 elev (lat + 5000 * (1/111000)) lon,
                 elev (lat - 5000 * (1/111000)) lon,
                 elev lat (lon + 5000 * (1/111000)),
                 elev lat (lon - 5000 * (1/111000))] -
        listMin [elev lat lon,
                 elev (lat + 5000 * (1/111000)) lon,
                 elev (lat - 5000 * (1/111000)) lon,
                 elev lat (lon + 5000 * (1/111000)),
                 elev lat (lon - 5000 * (1/111000))] < 100) ∧
    (should_skip_gemini_analysis (fun _ _ => 100) 0 0).1 = true ∧
    (should_skip_gemini_analysis (fun la _ => if la = 5000/111000 then 300 else 100) 0 0).1 = false := by
  refine ⟨fun elev lat lon => ?_, by with_unfolding_all rfl, by with_unfolding_all rfl⟩
  simp only [should_skip_gemini_analysis, get_terrain_variation]
  split <;> rename_i h
  · simpa using h
  · simpa using h

/-! ### Gemini navigation service (`navigation/services.py`)

The external model invocation (`client.models.generate_content`
followed by `json.loads(response.text)`) is modelled as an oracle
value: `raise` is a transport/model/timeout exception, `ok none sig`
a response whose text is not valid JSON (`json.JSONDecodeError`), and
`ok (some j) sig` a successfully parsed JSON object `j` together with
the new thought signature.  A Python dict with possibly-absent keys is
modelled as a structure of `Option` fields (`none` = key absent). -/

/-- Parsed JSON object returned by the navigation-frame model call. -/
structure NavJson where
  instruction : Option String := none
  bearing_adjustment : Option ℚ := none
  landmark_identified : Option String := none
  confidence : Option ℚ := none
  is_lost : Option Bool := none
deriving DecidableEq

/-- Outcome of one external model invocation for `analyze_navigation_frame`. -/
inductive ModelCall where
  | raise (msg : String)
  | ok (parsed : Option NavJson) (sig : Option String)

/-- Return dict of `analyze_navigation_frame` (keys may be absent). -/
structure AIResult where
  error : Option String := none
  data : Option NavJson := none
  thought_signature : Option String := none
  success : Bool := false

/-- `GeminiNavigationService._get_fallback_response`. -/
def _get_fallback_response : NavJson :=
  { instruction := some "Continue forward - AI navigation temporarily unavailable",
    bearing_adjustment := some 0,
    landmark_identified := some "Unknown",
    confidence := some 0,
    is_lost := some false }

/-- `GeminiNavigationService._fill_missing_fields`: `{**defaults, **data}`. -/
def _fill_missing_fields (data : NavJson) : NavJson :=
  { instruction := some (data.instruction.getD "Continue forward"),
    bearing_adjustment := some (data.bearing_adjustment.getD 0),
    landmark_identified := some (data.landmark_identified.getD "Unknown"),
    confidence := some (data.confidence.getD (1/2)),
    is_lost := some (data.is_lost.getD false) }

/-- `GeminiNavigationService.analyze_navigation_frame`.  `has_client`
models `self.client is not None`; `image_decode` the outcome of
`base64.b64decode`; `call` the model invocation plus JSON parse.
Every failure is caught and returned as an `error` entry alongside
`_get_fallback_response` data; nothing propagates. -/
def analyze_navigation_frame (has_client : Bool) (image_decode : Except String Unit)
    (call : ModelCall) : AIResult :=
  if !has_client then
    { error := some "Gemini client not initialized. Check GEMINI_API_KEY in settings.",
      data := some _get_fallback_response }
  else
    match image_decode with
    | .error e => { error := some e, data := some _get_fallback_response }
    | .ok _ =>
      match call with
      | .raise e => { error := some e, data := some _get_fallback_response }
      | .ok none sig =>
        { error := some "Invalid JSON response from AI",
          data := some _get_fallback_response, thought_signature := sig }
      | .ok (some j) sig =>
        let nd := if j.instruction.isSome && j.bearing_adjustment.isSome &&
                     j.landmark_identified.isSome
                  then j else _fill_missing_fields j
        { data := some nd, thought_signature := sig, success := true }

/-! ### Turn guidance (`GeminiNavigationService.generate_turn_guidance`) -/

/-- Guidance text template (the Python f-strings abstracted to their
payloads; `model` carries the stripped AI-generated phrase). -/
inductive GuidanceText where
  | notInitialized
  | alignedMeters (poi : String) (meters : ℤ)
  | alignedKm (poi : String) (km : ℚ)
  | model (text : String)
  | template (direction : String) (amount : ℚ)
deriving DecidableEq

/-- Return value of `generate_turn_guidance`. -/
structure TurnGuidance where
  error : Option String := none
  text : GuidanceText
  alignment_status : String
  turn_degrees : ℚ
deriving DecidableEq

/-- `GeminiNavigationService.generate_turn_guidance`: pure heading
delta / alignment-state derivation, with an AI-generated phrase
(`model = .ok text`) or a deterministic template on AI failure. -/
def generate_turn_guidance (has_client : Bool) (model : Except String String)
    (user_heading target_bearing distance_m : ℚ) (poi_name : String) : TurnGuidance :=
  if !has_client then
    { error := some "Gemini client not initialized", text := .notInitialized,
      alignment_status := "unknown", turn_degrees := 0 }
  else
    let heading_diff0 := pymod (target_bearing - user_heading + 360) 360
    let heading_diff := if heading_diff0 > 180 then heading_diff0 - 360 else heading_diff0
    let turn_amount := |heading_diff|
    let status := if turn_amount < 5 then "aligned"
                  else if heading_diff < 0 then "turning_right"
                  else "turning_left"
    let distance_km := distance_m / 1000
    if status = "aligned" then
      { text := if distance_km < 1 then .alignedMeters poi_name (pyInt distance_m)
                else .alignedKm poi_name distance_km,
        alignment_status := status, turn_degrees := heading_diff }
    else
      let direction := if heading_diff > 0 then "left" else "right"
      match model with
      | .ok t =>
        { text := .model t.trim, alignment_status := status,
          turn_degrees := pyRoundTo 2 heading_diff }
      | .error _ =>
        { text := .template direction turn_amount, alignment_status := status,
          turn_degrees := pyRoundTo 2 heading_diff }

/-- The signed heading delta of the claim:
`(target_bearing - user_heading + 360) % 360` normalized into `(-180, 180]`. -/
def headingDelta (user_heading target_bearing : ℚ) : ℚ :=
  let d0 := pymod (target_bearing - user_heading + 360) 360
  if d0 > 180 then d0 - 360 else d0

/-- The alignment status computed by `generate_turn_guidance` is the
three-way classification of the normalized heading delta. -/
lemma turn_guidance_status (user_heading target_bearing distance_m : ℚ) (poi_name : String)
    (model : Except String String) :
    (generate_turn_guidance true model user_heading target_bearing distance_m
        poi_name).alignment_status =
      (if |headingDelta user_heading target_bearing| < 5 then "aligned"
       else if headingDelta user_heading target_bearing < 0 then "turning_right"
       else "turning_left") := by
  simp only [generate_turn_guidance, headingDelta, Bool.not_true, Bool.false_eq_true, if_false]
  split_ifs <;> first | rfl | (cases model <;> rfl)

/-- C5: for headings in `[0, 360)`, `generate_turn_guidance` classifies
by the normalized delta Δ: `aligned` iff `|Δ| < 5`, `turning_left` iff
`|Δ| ≥ 5 ∧ Δ > 0`, `turning_right` iff `|Δ| ≥ 5 ∧ Δ < 0`; and on the
claim's examples: (90,90) → aligned with 0°, (90,100) → turning_left
with 10°, (350,10) → turning_left with Δ = 20. -/
theorem generate_turn_guidance_alignment :
    (∀ (user_heading target_bearing distance_m : ℚ) (poi_name : String)
       (model : Except String String),
      0 ≤ user_heading → user_heading < 360 → 0 ≤ target_bearing → target_bearing < 360 →
      ((generate_turn_guidance true model user_heading target_bearing distance_m
          poi_name).alignment_status = "aligned" ↔
        |headingDelta user_heading target_bearing| < 5) ∧
      ((generate_turn_guidance true model user_heading target_bearing distance_m
          poi_name).alignment_status = "turning_left" ↔
        5 ≤ |headingDelta user_heading target_bearing| ∧
          0 < headingDelta user_heading target_bearing) ∧
      ((generate_turn_guidance true model user_heading target_bearing distance_m
          poi_name).alignment_status = "turning_right" ↔
        5 ≤ |headingDelta user_heading target_bearing| ∧
          headingDelta user_heading target_bearing < 0)) ∧
    (∀ (distance_m : ℚ) (poi_name : String) (model : Except String String),
      (generate_turn_guidance true model 90 90 distance_m poi_name).alignment_status =
        "aligned" ∧
      (generate_turn_guidance true model 90 90 distance_m poi_name).turn_degrees = 0) ∧
    (∀ (distance_m : ℚ) (poi_name : String) (model : Except String String),
      (generate_turn_guidance true model 90 100 distance_m poi_name).alignment_status =
        "turning_left" ∧
      (generate_turn_guidance true model 90 100 distance_m poi_name).turn_degrees = 10) ∧
    (∀ (distance_m : ℚ) (poi_name : String) (model : Except String String),
      (generate_turn_guidance true model 350 10 distance_m poi_name).alignment_status =
        "turning_left" ∧
      headingDelta 350 10 = 20 ∧
      (generate_turn_guidance true model 350 10 distance_m poi_name).turn_degrees = 20) := by
  refine ⟨?_, ?_, ?_, ?_⟩
  · intro uh tb dm poi model _ _ _ _
    rw [turn_guidance_status uh tb dm poi model]
    rcases lt_or_le |headingDelta uh tb| 5 with h | h
    · rw [if_pos h]
      exact ⟨iff_of_true rfl h,
             iff_of_false (by decide) (fun hx => absurd h (not_lt.mpr hx.1)),
             iff_of_false (by decide) (fun hx => absurd h (not_lt.mpr hx.1))⟩
    · have h' : ¬ |headingDelta uh tb| < 5 := not_lt.mpr h
      rw [if_neg h']
      rcases lt_trichotomy (headingDelta uh tb) 0 with hn | hz | hp
      · rw [if_pos hn]
        exact ⟨iff_of_false (by decide) h',
               iff_of_false (by decide) (fun hx => absurd hn (asymm hx.2)),
               iff_of_true rfl ⟨h, hn⟩⟩
      · exfalso
        rw [hz] at h
        norm_num at h
      · rw [if_neg (not_lt.mpr (le_of_lt hp))]
        exact ⟨iff_of_false (by decide) h',
               iff_of_true rfl ⟨h, hp⟩,
               iff_of_false (by decide) (fun hx => absurd hp (asymm hx.2))⟩
  · intro dm poi model
    exact ⟨by with_unfolding_all rfl, by with_unfolding_all rfl⟩
  · intro dm poi model
    cases model <;> exact ⟨by with_unfolding_all rfl, by with_unfolding_all rfl⟩
  · intro dm poi model
    cases model <;>
      exact ⟨by with_unfolding_all rfl, by with_unfolding_all rfl, by with_unfolding_all rfl⟩

/-- Witness for C5 at user_heading 90, target_bearing 100. -/
theorem generate_turn_guidance_alignment_witness :
    ((0:ℚ) ≤ 90 ∧ (90:ℚ) < 360 ∧ (0:ℚ) ≤ 100 ∧ (100:ℚ) < 360) ∧
    ((generate_turn_guidance true (.error "down") 90 100 250 "Cafe").alignment_status =
        "turning_left" ↔
      5 ≤ |headingDelta 90 100| ∧ 0 < headingDelta 90 100) :=
  ⟨by norm_num,
   (generate_turn_guidance_alignment.1 90 100 250 "Cafe" (.error "down")
      (by norm_num) (by norm_num) (by norm_num) (by norm_num)).2.1⟩

/-! ### Horizon analysis (`GeminiNavigationService.analyze_horizon`)

POI dicts and skyline-feature dicts are opaque to the control flow, so
they are type parameters.  `dem_exc` models an exception escaping the
DEM pre-check block (`ImportError`/`Exception`: proceed with Gemini);
the prompt-building over `visible_pois` sits inside the same `try` as
the model call, so its failures are absorbed into `call = .raise`. -/

/-- Parsed JSON object returned by the horizon model call. -/
structure HorizonJson (α γ : Type) where
  horizon_line_y_percent : Option ℚ := none
  skyline_features : Option (List γ) := none
  refined_pois : Option (List α) := none

/-- Outcome of the external horizon model invocation. -/
inductive HorizonCall (α γ : Type) where
  | raise (msg : String)
  | ok (parsed : Option (HorizonJson α γ)) (sig : Option String)

/-- Return dict of `analyze_horizon` (keys may be absent). -/
structure HorizonResult (α γ : Type) where
  error : Option String := none
  data : Option (HorizonJson α γ) := none
  refined_pois : Option (List α) := none
  success : Bool := false
  skipped_reason : Option SkipReason := none
  thought_signature : Option String := none

/-- `GeminiNavigationService.analyze_horizon`. -/
def analyze_horizon {α γ : Type} (elev : ℚ → ℚ → ℚ) (dem_exc : Option String)
    (has_client : Bool) (image_decode : Except String Unit) (call : HorizonCall α γ)
    (latitude longitude heading : ℚ) (visible_pois : List α)
    (thought_signature : Option String) : HorizonResult α γ :=
  if dem_exc = none ∧ (should_skip_gemini_analysis elev latitude longitude).1 then
    { data := some { horizon_line_y_percent := some 50, skyline_features := some [],
                     refined_pois := some visible_pois },
      success := true,
      skipped_reason := some (should_skip_gemini_analysis elev latitude longitude).2 }
  else if !has_client then
    { error := some "Gemini client not initialized", refined_pois := some visible_pois }
  else
    match image_decode with
    | .error e => { error := some e, refined_pois := some visible_pois }
    | .ok _ =>
      match call with
      | .raise e => { error := some e, refined_pois := some visible_pois }
      | .ok none sig2 =>
        { error := some "Invalid JSON from horizon analysis",
          refined_pois := some visible_pois, thought_signature := sig2 }
      | .ok (some j) sig2 =>
        let j2 := if j.refined_pois.isSome then j
                  else { j with refined_pois := some visible_pois }
        { data := some j2, success := true, thought_signature := sig2 }

/-- C6: when the terrain gate reports skip = true (and the DEM
pre-check does not itself raise), `analyze_horizon` is a pure
pass-through: `refined_pois` is exactly the input `visible_pois`,
`skyline_features` is empty, a `skipped_reason` is set, `success` is
true, and no error or signature is produced — regardless of the
client, the image, or the model call. -/
theorem analyze_horizon_skip_passthrough :
    ∀ {α γ : Type} (elev : ℚ → ℚ → ℚ) (has_client : Bool)
      (image_decode : Except String Unit) (call : HorizonCall α γ)
      (latitude longitude heading : ℚ) (visible_pois : List α) (sig : Option String),
      (should_skip_gemini_analysis elev latitude longitude).1 = true →
      analyze_horizon elev none has_client image_decode call latitude longitude heading
          visible_pois sig =
        { data := some { horizon_line_y_percent := some 50, skyline_features := some [],
                         refined_pois := some visible_pois },
          success := true,
          skipped_reason := some (should_skip_gemini_analysis elev latitude longitude).2 } := by
  intro α γ elev has_client image_decode call latitude longitude heading visible_pois sig h
  simp [analyze_horizon, h]

/-- Witness for C6: flat-terrain oracle at the origin with one POI. -/
theorem analyze_horizon_skip_passthrough_witness :
    (should_skip_gemini_analysis (fun _ _ => 100) 0 0).1 = true ∧
    @analyze_horizon String String (fun _ _ => 100) none false (.error "bad image")
        (.raise "unreachable") 0 0 90 ["Kisumu City"] none =
      { data := some { horizon_line_y_percent := some 50, skyline_features := some [],
                       refined_pois := some ["Kisumu City"] },
        success := true,
        skipped_reason := some (should_skip_gemini_analysis (fun _ _ => 100) 0 0).2 } :=
  ⟨by with_unfolding_all rfl,
   analyze_horizon_skip_passthrough (fun _ _ => 100) false (.error "bad image")
     (.raise "unreachable") 0 0 90 ["Kisumu City"] none (by with_unfolding_all rfl)⟩

/-! ### View helpers (`navigation/views.py`)

The PostGIS store annotates each nearby waypoint with a planar GEOS
degree distance (`location.distance(...)`), which the view multiplies
by 111000; the store is external, so that distance is a field of the
modelled waypoint.  `calculate_bearing` is transcendental (spherical
trigonometry over floats); the view-level claims hold for every value
it can return, so it enters the view as an oracle `bearing_fn`. -/

/-- A waypoint as seen by `analyze_frame`, ordered by the store. -/
structure Waypoint where
  name : String
  lat : ℚ
  lon : ℚ
  geos_distance_deg : ℚ

/-- Payload of `format_distance` (f-strings abstracted): exact meters
below 50 m, a 50 m bucket below 1 km, one-decimal kilometers above. -/
inductive DistanceText where
  | exact (m : ℤ)
  | bucket (m : ℤ)
  | km (v : ℚ)
deriving DecidableEq

/-- `format_distance` (views.py): human-readable distance. -/
def format_distance (meters : ℚ) : DistanceText :=
  if meters < 50 then .exact (pyInt meters)
  else if meters < 1000 then .bucket (pyRound (meters / 50) * 50)
  else .km (meters / 1000)

/-- Message of a navigation instruction (f-strings abstracted). -/
inductive NavMessage where
  | approach (direction : String) (landmark : String) (dist : DistanceText)
      (nearby : Option String)
  | exploring
  | model (text : String)
deriving DecidableEq

/-- One navigation instruction dict. -/
structure Instruction where
  direction : String
  distance : ℚ
  message : NavMessage
deriving DecidableEq

/-- `get_direction_from_bearing` (views.py): heading delta to direction. -/
def get_direction_from_bearing (current_heading target_bearing : ℚ) : String :=
  let diff := pymod (target_bearing - current_heading + 360) 360
  if diff < 45 ∨ diff > 315 then "forward"
  else if 45 ≤ diff ∧ diff < 135 then "right"
  else if 135 ≤ diff ∧ diff < 225 then "turn-around"
  else "left"

/-- `infer_direction_from_bearing` (views.py): AI bearing adjustment to direction. -/
def infer_direction_from_bearing (bearing_adjustment : ℚ) : String :=
  if -(45/2) ≤ bearing_adjustment ∧ bearing_adjustment ≤ 45/2 then "forward"
  else if 45/2 < bearing_adjustment ∧ bearing_adjustment ≤ 90 then "right"
  else if bearing_adjustment > 90 then "turn-around"
  else if -90 ≤ bearing_adjustment ∧ bearing_adjustment < -(45/2) then "left"
  else "turn-around"

/-- `get_enhanced_fallback_instructions` (views.py): geometric fallback
from the nearest waypoints; always returns exactly one instruction. -/
def get_enhanced_fallback_instructions (bearing_fn : ℚ → ℚ → ℚ → ℚ → ℚ)
    (loc_lat loc_lon heading : ℚ) (nearby_waypoints : List Waypoint)
    (destination_name : Option String) : List Instruction :=
  match nearby_waypoints with
  | [] => [{ direction := "forward", distance := 0, message := .exploring }]
  | nearest :: rest =>
    let distance_to_nearest := nearest.geos_distance_deg * 111000
    let bearing := bearing_fn loc_lat loc_lon nearest.lat nearest.lon
    let direction := get_direction_from_bearing heading bearing
    let landmark_name := pyOrElse destination_name nearest.name
    let distance_str := format_distance distance_to_nearest
    let nearby := match rest with
                  | [] => none
                  | second :: _ => some second.name
    [{ direction := direction, distance := pyRoundTo 1 distance_to_nearest,
       message := .approach direction landmark_name distance_str nearby }]

/-- `calculate_distance_to_nearest` (views.py). -/
def calculate_distance_to_nearest (nearby_waypoints : List Waypoint) : ℚ :=
  match nearby_waypoints with
  | [] => 0
  | nearest :: _ => pyRoundTo 1 (nearest.geos_distance_deg * 111000)

/-! ### Serializers (`navigation/serializers.py`) and the result cache -/

/-- `FrameAnalysisSerializer.validate_heading`: accepts `0 <= h <= 360`. -/
def validate_heading (heading : ℚ) : Bool := decide (0 ≤ heading ∧ heading ≤ 360)

/-- `FrameAnalysisSerializer.is_valid()`: base64 image of length ≥ 100
and a heading passing `validate_heading` (lat/lon are unchecked floats). -/
def serializer_is_valid (image : String) (heading : ℚ) : Bool :=
  decide (100 ≤ image.length) && validate_heading heading

/-- Result-cache key `(round(lat,4), round(lon,4), round(heading/15)*15)`. -/
abbrev CacheKey := ℚ × ℚ × ℚ

/-- Cache-key quantization of `analyze_frame` (views.py lines 152-155). -/
def cache_quantize (latitude longitude heading : ℚ) : CacheKey :=
  (pyRoundTo 4 latitude, pyRoundTo 4 longitude, ((pyRound (heading / 15) * 15 : ℤ) : ℚ))

/-- Response dict of `analyze_frame`. -/
structure FrameResponse where
  instructions : List Instruction
  confidence : ℚ
  landmarks : List String
  thought_signature : Option String
  from_cache : Bool
deriving DecidableEq

/-- The Django result cache, keyed by quantized location/heading. -/
def CacheState : Type := CacheKey → Option FrameResponse

/-- Junk default for `Option.getD` on the cache-hit branch; never
reached because that branch requires `isSome`. -/
def no_response : FrameResponse :=
  { instructions := [], confidence := 0, landmarks := [], thought_signature := none,
    from_cache := false }

/-- `AnalyzeFrameResponseSerializer.is_valid()`: every instruction
direction must be one of the four choices (the remaining fields are
well-typed by construction here). -/
def response_serializer_is_valid (r : FrameResponse) : Bool :=
  r.instructions.all fun i =>
    (["forward", "left", "right", "turn-around"] : List String).contains i.direction

/-- `Response(response_serializer.data)`: the response serializer only
declares `instructions`, `confidence`, `landmarks` (+ optional
`session_id`), so a validated response drops `thought_signature` and
`from_cache`. -/
def strip_response (r : FrameResponse) : FrameResponse :=
  { r with thought_signature := none, from_cache := false }

/-! ### The `analyze_frame` endpoint (`navigation/views.py` 108-254) -/

/-- External and stateful collaborators of one `analyze_frame` request:
cache configuration and contents, the Gemini client state, the image
decode and model-call oracles, a possible exception escaping the
view-level `try` around the service call, the waypoints returned by
the store, and the bearing/compression oracles. -/
structure FrameEnv where
  enable_result_caching : Bool
  cache : CacheState
  has_client : Bool
  image_decode : Except String Unit
  model_call : ModelCall
  view_exception : Option String
  nearby_waypoints : List Waypoint
  bearing_fn : ℚ → ℚ → ℚ → ℚ → ℚ
  compress_fn : String → Option String

/-- Validated request payload plus the extra `request.data` keys. -/
structure FrameRequest where
  image : String
  latitude : ℚ
  longitude : ℚ
  heading : ℚ
  accuracy : ℚ
  thought_signature : Option String
  destination : Option String
  compress : Bool

/-- Outcome of the endpoint: a 400 on serializer failure, otherwise a
200 response together with the cache state after the request. -/
inductive FrameOutcome where
  | badRequest (cache : CacheState)
  | ok (resp : FrameResponse) (cache : CacheState)

/-- The `ai_result` local of `analyze_frame`: the service result, or
`{'error': str(e)}` when the view-level `except` catches an exception
raised outside the service's own handlers. -/
def view_ai_result (env : FrameEnv) : AIResult :=
  match env.view_exception with
  | some msg => { error := some msg }
  | none => analyze_navigation_frame env.has_client env.image_decode env.model_call

/-- Lines 237-254 of `analyze_frame`: build `response_data`, store it
in the cache when caching is enabled and the request is token-free,
then return it through the response serializer (stripping undeclared
fields when it validates). -/
def finish_response (env : FrameEnv) (req : FrameRequest) (cache_key : CacheKey)
    (instructions : List Instruction) (confidence : ℚ) (landmarks : List String)
    (new_thought_signature : Option String) : FrameOutcome :=
  let response_data : FrameResponse :=
    { instructions := instructions, confidence := confidence, landmarks := landmarks,
      thought_signature := new_thought_signature, from_cache := false }
  let cache2 : CacheState :=
    if env.enable_result_caching && !(pyTruthy req.thought_signature) then
      fun k => if k = cache_key then some response_data else env.cache k
    else env.cache
  if response_serializer_is_valid response_data then
    .ok (strip_response response_data) cache2
  else
    .ok response_data cache2

/-- The `analyze_frame` view: validation, compression, cache lookup,
waypoint lookup, AI analysis with fallback, caching, serialization. -/
def analyze_frame (env : FrameEnv) (req : FrameRequest) : FrameOutcome :=
  if !(serializer_is_valid req.image req.heading) then .badRequest env.cache
  else
    let image := if req.compress && !req.image.isEmpty then
                   (env.compress_fn req.image).getD req.image
                 else req.image
    let cache_key := cache_quantize req.latitude req.longitude req.heading
    if env.enable_result_caching && (env.cache cache_key).isSome &&
        !(pyTruthy req.thought_signature) then
      .ok { ((env.cache cache_key).getD no_response) with from_cache := true } env.cache
    else
      let landmarks := env.nearby_waypoints.map Waypoint.name
      let destination_name :=
        match env.nearby_waypoints, pyTruthy req.destination with
        | w :: _, false => some w.name
        | _, _ => req.destination
      match (view_ai_result env).error with
      | some _ =>
        let instructions := get_enhanced_fallback_instructions env.bearing_fn
          req.latitude req.longitude req.heading env.nearby_waypoints destination_name
        finish_response env req cache_key instructions (2/5) landmarks none
      | none =>
        let ai_data := (view_ai_result env).data.getD _get_fallback_response
        let direction := infer_direction_from_bearing (ai_data.bearing_adjustment.getD 0)
        let instructions := [{ direction := direction,
                               distance := calculate_distance_to_nearest env.nearby_waypoints,
                               message := NavMessage.model
                                 (ai_data.instruction.getD "Continue forward") : Instruction }]
        let confidence := ai_data.confidence.getD (4/5)
        let landmarks2 :=
          match ai_data.landmark_identified with
          | some l => if !l.isEmpty && l != "Unknown" then l :: landmarks else landmarks
          | none => landmarks
        finish_response env req cache_key instructions confidence landmarks2
          (view_ai_result env).thought_signature

/-! ### Claims about `analyze_frame` -/

/-- The claim's notion of AI-capability failure: client missing, image
decode failure, transport/model/timeout exception, unparseable model
output, or an exception caught by the view around the service call. -/
def ai_capability_failed (env : FrameEnv) : Prop :=
  env.view_exception.isSome = true ∨ env.has_client = false ∨
  (∃ msg, env.image_decode = .error msg) ∨
  (∃ msg, env.model_call = .raise msg) ∨
  (∃ sig, env.model_call = .ok none sig)

/-- AI failure in the claim's sense is exactly an `error` key on the
`ai_result` the view branches on. -/
lemma ai_failed_iff (env : FrameEnv) :
    ai_capability_failed env ↔ (view_ai_result env).error.isSome = true := by
  cases hve : env.view_exception with
  | some m => simp [ai_capability_failed, view_ai_result, hve]
  | none =>
    cases hc : env.has_client with
    | false => simp [ai_capability_failed, view_ai_result, analyze_navigation_frame, hve, hc]
    | true =>
      cases hd : env.image_decode with
      | error e =>
        simp [ai_capability_failed, view_ai_result, analyze_navigation_frame, hve, hc, hd]
      | ok u =>
        cases hm : env.model_call with
        | raise e =>
          simp [ai_capability_failed, view_ai_result, analyze_navigation_frame, hve, hc, hd, hm]
        | ok parsed sig =>
          cases parsed with
          | none =>
            simp [ai_capability_failed, view_ai_result, analyze_navigation_frame,
              hve, hc, hd, hm]
          | some j =>
            simp [ai_capability_failed, view_ai_result, analyze_navigation_frame,
              hve, hc, hd, hm]

/-- Direction strings produced by `get_direction_from_bearing`. -/
lemma get_direction_from_bearing_mem (current_heading target_bearing : ℚ) :
    get_direction_from_bearing current_heading target_bearing ∈
      (["forward", "left", "right", "turn-around"] : List String) := by
  simp only [get_direction_from_bearing]
  split_ifs <;> simp

/-- Python round is nonnegative on nonnegative input. -/
lemma pyRound_nonneg {q : ℚ} (hq : 0 ≤ q) : 0 ≤ pyRound q := by
  simp only [pyRound]
  have h0 : (0:ℤ) ≤ ⌊q⌋ := Int.floor_nonneg.mpr hq
  split_ifs <;> omega

/-- Python round-to-digits is nonnegative on nonnegative input. -/
lemma pyRoundTo_nonneg {n : ℕ} {q : ℚ} (hq : 0 ≤ q) : 0 ≤ pyRoundTo n q := by
  unfold pyRoundTo
  apply div_nonneg
  · exact_mod_cast pyRound_nonneg (by positivity)
  · positivity

/-- The geometric fallback always yields a nonempty list of
instructions with a legal direction and a nonnegative distance. -/
lemma fallback_instructions_wf (bearing_fn : ℚ → ℚ → ℚ → ℚ → ℚ)
    (loc_lat loc_lon heading : ℚ) (wps : List Waypoint) (dest : Option String)
    (hw : ∀ w ∈ wps, 0 ≤ w.geos_distance_deg) :
    get_enhanced_fallback_instructions bearing_fn loc_lat loc_lon heading wps dest ≠ [] ∧
    ∀ i ∈ get_enhanced_fallback_instructions bearing_fn loc_lat loc_lon heading wps dest,
      i.direction ∈ (["forward", "left", "right", "turn-around"] : List String) ∧
      0 ≤ i.distance := by
  cases wps with
  | nil =>
    refine ⟨by simp [get_enhanced_fallback_instructions], ?_⟩
    intro i hi
    simp only [get_enhanced_fallback_instructions, List.mem_singleton] at hi
    subst hi
    exact ⟨by simp, le_refl 0⟩
  | cons w rest =>
    refine ⟨by simp [get_enhanced_fallback_instructions], ?_⟩
    intro i hi
    simp only [get_enhanced_fallback_instructions, List.mem_singleton] at hi
    subst hi
    refine ⟨get_direction_from_bearing_mem _ _, ?_⟩
    exact pyRoundTo_nonneg (mul_nonneg (hw w (by simp)) (by norm_num))

/-- What the claim asks of the endpoint outcome under AI failure: a 200
response carrying a nonempty, well-formed instruction list and the
fallback confidence 0.4 ∈ [0,1] (never a propagated error). -/
def wellformed_fallback_outcome (o : FrameOutcome) : Prop :=
  match o with
  | .badRequest _ => False
  | .ok resp _ =>
      resp.instructions ≠ [] ∧
      (∀ i ∈ resp.instructions,
        i.direction ∈ (["forward", "left", "right", "turn-around"] : List String) ∧
        0 ≤ i.distance) ∧
      resp.confidence = 2/5 ∧ 0 ≤ resp.confidence ∧ resp.confidence ≤ 1

/-- `finish_response` preserves instruction list and confidence
through caching and serialization. -/
lemma finish_response_wellformed (env : FrameEnv) (req : FrameRequest) (k : CacheKey)
    (instructions : List Instruction) (landmarks : List String) (sig : Option String)
    (hne : instructions ≠ [])
    (hwf : ∀ i ∈ instructions,
      i.direction ∈ (["forward", "left", "right", "turn-around"] : List String) ∧
      0 ≤ i.distance) :
    wellformed_fallback_outcome (finish_response env req k instructions (2/5) landmarks sig) := by
  simp only [finish_response]
  split_ifs <;> simp only [wellformed_fallback_outcome, strip_response] <;>
    exact ⟨hne, hwf, by norm_num, by norm_num, by norm_num⟩

/-- C1: whenever the AI capability fails at any stage and the request
is not served from the cache, `analyze_frame` still returns a 200
response with a nonempty well-formed instruction list and confidence
0.4 ∈ [0,1]; the failure is consumed, never propagated (the endpoint
is a total function into `FrameOutcome.ok`). -/
theorem analyze_frame_ai_failure_safe :
    ∀ (env : FrameEnv) (req : FrameRequest),
      serializer_is_valid req.image req.heading = true →
      ai_capability_failed env →
      (env.enable_result_caching = false ∨
        env.cache (cache_quantize req.latitude req.longitude req.heading) = none ∨
        pyTruthy req.thought_signature = true) →
      (∀ w ∈ env.nearby_waypoints, 0 ≤ w.geos_distance_deg) →
      wellformed_fallback_outcome (analyze_frame env req) := by
  intro env req hvalid hfail hmiss hw
  have herr : (view_ai_result env).error.isSome = true := (ai_failed_iff env).mp hfail
  obtain ⟨msg, hmsg⟩ := Option.isSome_iff_exists.mp herr
  have hcond : (env.enable_result_caching &&
      (env.cache (cache_quantize req.latitude req.longitude req.heading)).isSome &&
      !(pyTruthy req.thought_signature)) = false := by
    rcases hmiss with h | h | h <;> simp [h]
  simp only [analyze_frame, hvalid, Bool.not_true, Bool.false_eq_true, if_false, hcond]
  rw [hmsg]
  exact finish_response_wellformed env req _ _ _ _
    (fallback_instructions_wf env.bearing_fn req.latitude req.longitude req.heading
      env.nearby_waypoints _ hw).1
    (fallback_instructions_wf env.bearing_fn req.latitude req.longitude req.heading
      env.nearby_waypoints _ hw).2

/-- Concrete environment: caching disabled, empty cache, Gemini client
missing, model transport down, no waypoints nearby. -/
def sample_env : FrameEnv :=
  { enable_result_caching := false, cache := fun _ => none, has_client := false,
    image_decode := .ok (), model_call := .raise "504 Deadline Exceeded",
    view_exception := none, nearby_waypoints := [],
    bearing_fn := fun _ _ _ _ => 0, compress_fn := fun s => some s }

/-- Concrete valid token-free request. -/
def sample_req : FrameRequest :=
  { image := String.mk (List.replicate 100 'x'), latitude := 0, longitude := 0,
    heading := 90, accuracy := 0, thought_signature := none, destination := none,
    compress := true }

/-- Witness for C1: client missing, caching disabled, no waypoints. -/
theorem analyze_frame_ai_failure_safe_witness :
    wellformed_fallback_outcome (analyze_frame sample_env sample_req) :=
  analyze_frame_ai_failure_safe sample_env sample_req (by with_unfolding_all rfl)
    (Or.inr (Or.inl rfl)) (Or.inl rfl) (by simp [sample_env])

/-- What the claim asks of the endpoint outcome for a token-carrying
request: the cache is left untouched and the response is not served
from the cache. -/
def bypasses_cache (env : FrameEnv) (o : FrameOutcome) : Prop :=
  match o with
  | .badRequest cache2 => cache2 = env.cache
  | .ok resp cache2 => cache2 = env.cache ∧ resp.from_cache = false

/-- `finish_response` for a token-carrying request never stores. -/
lemma finish_response_bypass (env : FrameEnv) (req : FrameRequest) (k : CacheKey)
    (instructions : List Instruction) (confidence : ℚ) (landmarks : List String)
    (sig : Option String) (h : pyTruthy req.thought_signature = true) :
    bypasses_cache env (finish_response env req k instructions confidence landmarks sig) := by
  simp only [finish_response, h, Bool.not_true, Bool.and_false, Bool.false_eq_true, if_false]
  split_ifs <;> exact ⟨rfl, rfl⟩

/-- C4: a request carrying a (truthy) reasoning-continuity token is
never answered from the result cache and never stored into it: the
cache state after the request is exactly the cache state before, and
the response is freshly computed (`from_cache = false`). -/
theorem analyze_frame_token_bypasses_cache :
    ∀ (env : FrameEnv) (req : FrameRequest),
      pyTruthy req.thought_signature = true →
      bypasses_cache env (analyze_frame env req) := by
  intro env req h
  simp only [analyze_frame]
  cases hv : serializer_is_valid req.image req.heading with
  | false => simp only [hv, Bool.not_false, if_true]; exact rfl
  | true =>
    simp only [hv, Bool.not_true, Bool.false_eq_true, if_false, h, Bool.and_false]
    cases he : (view_ai_result env).error with
    | some m => exact finish_response_bypass env req _ _ _ _ _ h
    | none => exact finish_response_bypass env req _ _ _ _ _ h

/-- Concrete token-carrying request. -/
def sample_req_tok : FrameRequest :=
  { sample_req with thought_signature := some "sig-a1b2" }

/-- Witness for C4 at a concrete token-carrying request. -/
theorem analyze_frame_token_bypasses_cache_witness :
    bypasses_cache sample_env (analyze_frame sample_env sample_req_tok) :=
  analyze_frame_token_bypasses_cache sample_env sample_req_tok (by with_unfolding_all rfl)

/-- C10 counterexample: a request heading of exactly 360 is accepted
by the serializer and is NOT normalized to 0: it is quantized to cache
bucket 360, distinct from heading 0's bucket 0. -/
theorem heading_360_not_normalized :
    validate_heading 360 = true ∧
    cache_quantize 0 0 360 = (0, 0, 360) ∧
    cache_quantize 0 0 0 = (0, 0, 0) ∧
    (360 : ℚ) ≠ 0 :=
  ⟨by with_unfolding_all rfl, by with_unfolding_all rfl, by with_unfolding_all rfl,
   by norm_num⟩

/-- C10 (amended): headings are validated against the closed interval
`[0, 360]` — values outside it are rejected with a 400 — and an
accepted heading, 360 included, is used as-is (no normalization) for
cache-key quantization and the AI context. -/
theorem heading_validation_range :
    (∀ h : ℚ, validate_heading h = true ↔ 0 ≤ h ∧ h ≤ 360) ∧
    (∀ (env : FrameEnv) (req : FrameRequest),
      ¬ (0 ≤ req.heading ∧ req.heading ≤ 360) →
      analyze_frame env req = .badRequest env.cache) ∧
    (cache_quantize 0 0 360).2.2 = 360 ∧ (cache_quantize 0 0 0).2.2 = 0 := by
  refine ⟨fun h => by simp [validate_heading], ?_, by with_unfolding_all rfl,
    by with_unfolding_all rfl⟩
  intro env req hbad
  have hv : serializer_is_valid req.image req.heading = false := by
    simp [serializer_is_valid, validate_heading, hbad]
  unfold analyze_frame
  rw [hv]
  rfl

/-- Witness for C10's amended theorem at heading 400. -/
theorem heading_validation_range_witness :
    analyze_frame sample_env
      { sample_req with heading := 400 } = .badRequest sample_env.cache :=
  heading_validation_range.2.1 sample_env { sample_req with heading := 400 }
    (by norm_num)

/-! ### Geodesy engine (`navigation/utils.py` 204-327)

These functions are genuinely transcendental (`math.sin`, `math.atan2`
over floats), so they are embedded over the reals. -/

/-- `math.radians`. -/
noncomputable def radians (x : ℝ) : ℝ := x * Real.pi / 180

/-- `math.atan2` (the C convention, ignoring signed zeros). -/
noncomputable def atan2 (y x : ℝ) : ℝ :=
  if 0 < x then Real.arctan (y / x)
  else if x < 0 then
    (if 0 ≤ y then Real.arctan (y / x) + Real.pi else Real.arctan (y / x) - Real.pi)
  else if 0 < y then Real.pi / 2
  else if y < 0 then -(Real.pi / 2)
  else 0

/-- The `a` local of `calculate_distance_haversine`:
`sin(dlat/2)² + cos(lat1)·cos(lat2)·sin(dlon/2)²` in radians. -/
noncomputable def hav_a (lat1 lon1 lat2 lon2 : ℝ) : ℝ :=
  Real.sin (radians (lat2 - lat1) / 2) ^ 2 +
    Real.cos (radians lat1) * Real.cos (radians lat2) *
      Real.sin (radians (lon2 - lon1) / 2) ^ 2

/-- `calculate_distance_haversine` (utils.py): haversine distance with
Earth radius 6 371 000 m, `c = 2*atan2(√a, √(1-a))`, `d = R*c`. -/
noncomputable def calculate_distance_haversine (lat1 lon1 lat2 lon2 : ℝ) : ℝ :=
  let R : ℝ := 6371000
  let a := hav_a lat1 lon1 lat2 lon2
  let c := 2 * atan2 (Real.sqrt a) (Real.sqrt (1 - a))
  R * c

/-- `calculate_elevation_angle` (utils.py): 0 for coincident points,
otherwise `degrees(atan((Δh - d²/(2R)) / d))`. -/
noncomputable def calculate_elevation_angle (lat1 lon1 h1 lat2 lon2 h2 : ℝ) : ℝ :=
  let EARTH_RADIUS : ℝ := 6371000
  let d := calculate_distance_haversine lat1 lon1 lat2 lon2
  if d = 0 then 0
  else
    let delta_h := h2 - h1
    let horizon_drop := d ^ 2 / (2 * EARTH_RADIUS)
    let effective_delta_h := delta_h - horizon_drop
    Real.arctan (effective_delta_h / d) * 180 / Real.pi

/-- The haversine core `R·2·atan2(√a, √(1-a))` vanishes iff `a = 0`
(for `a ≥ 0`). -/
lemma haversine_core_eq_zero_iff {a : ℝ} (ha : 0 ≤ a) :
    (6371000 : ℝ) * (2 * atan2 (Real.sqrt a) (Real.sqrt (1 - a))) = 0 ↔ a = 0 := by
  constructor
  · intro h
    have hc : atan2 (Real.sqrt a) (Real.sqrt (1 - a)) = 0 := by
      rcases mul_eq_zero.mp h with h' | h'
      · norm_num at h'
      · rcases mul_eq_zero.mp h' with h'' | h''
        · norm_num at h''
        · exact h''
    by_cases hx : 0 < Real.sqrt (1 - a)
    · rw [atan2, if_pos hx] at hc
      have hdiv : Real.sqrt a / Real.sqrt (1 - a) = 0 := Real.arctan_eq_zero_iff.mp hc
      rcases div_eq_zero_iff.mp hdiv with h2 | h2
      · have := Real.sqrt_eq_zero'.mp h2
        linarith
      · exact absurd h2 (ne_of_gt hx)
    · have hx0 : Real.sqrt (1 - a) = 0 := le_antisymm (not_lt.mp hx) (Real.sqrt_nonneg _)
      have ha1 : 1 ≤ a := by
        have := Real.sqrt_eq_zero'.mp hx0
        linarith
      have hsa : 0 < Real.sqrt a := Real.sqrt_pos.mpr (by linarith)
      rw [atan2, hx0, if_neg (lt_irrefl 0), if_neg (lt_irrefl 0), if_pos hsa] at hc
      have := Real.pi_pos
      linarith
  · intro h
    rw [h, Real.sqrt_zero, sub_zero, Real.sqrt_one, atan2]
    norm_num [Real.arctan_zero]

/-- For latitudes in `[-90, 90]` the cosine of the radian latitude is
nonnegative. -/
lemma cos_radians_nonneg {lat : ℝ} (hl : -90 ≤ lat) (hu : lat ≤ 90) :
    0 ≤ Real.cos (radians lat) := by
  have hpi := Real.pi_pos
  refine Real.cos_nonneg_of_mem_Icc ⟨?_, ?_⟩
  · unfold radians
    nlinarith [mul_nonneg (by linarith : (0:ℝ) ≤ lat + 90) (le_of_lt hpi)]
  · unfold radians
    nlinarith [mul_nonneg (by linarith : (0:ℝ) ≤ 90 - lat) (le_of_lt hpi)]

/-- `hav_a` is nonnegative for valid latitudes. -/
lemma hav_a_nonneg {lat1 lon1 lat2 lon2 : ℝ} (h1 : -90 ≤ lat1) (h2 : lat1 ≤ 90)
    (h3 : -90 ≤ lat2) (h4 : lat2 ≤ 90) : 0 ≤ hav_a lat1 lon1 lat2 lon2 :=
  add_nonneg (sq_nonneg _)
    (mul_nonneg (mul_nonneg (cos_radians_nonneg h1 h2) (cos_radians_nonneg h3 h4))
      (sq_nonneg _))

/-- `hav_a` is symmetric in its two points. -/
lemma hav_a_comm (lat1 lon1 lat2 lon2 : ℝ) :
    hav_a lat1 lon1 lat2 lon2 = hav_a lat2 lon2 lat1 lon1 := by
  simp only [hav_a, radians]
  rw [show (lat1 - lat2) * Real.pi / 180 / 2 = -((lat2 - lat1) * Real.pi / 180 / 2) by ring,
      show (lon1 - lon2) * Real.pi / 180 / 2 = -((lon2 - lon1) * Real.pi / 180 / 2) by ring,
      Real.sin_neg, Real.sin_neg]
  ring

/-- `hav_a` vanishes on coincident points. -/
lemma hav_a_self (lat lon : ℝ) : hav_a lat lon lat lon = 0 := by
  simp [hav_a, radians, sub_self]

/-- The haversine distance of a point to itself is 0. -/
lemma haversine_self (lat lon : ℝ) : calculate_distance_haversine lat lon lat lon = 0 := by
  unfold calculate_distance_haversine
  rw [hav_a_self]
  exact (haversine_core_eq_zero_iff le_rfl).mpr rfl

/-- A vanishing `sin(radians x / 2)` forces `x = 0` when `|x| ≤ 180`. -/
lemma sin_radians_half_eq_zero_lat {x : ℝ} (hl : -180 ≤ x) (hu : x ≤ 180)
    (h : Real.sin (radians x / 2) = 0) : x = 0 := by
  unfold radians at h
  have hpi := Real.pi_pos
  have hb1 : -Real.pi < x * Real.pi / 180 / 2 := by
    nlinarith [mul_nonneg (by linarith : (0:ℝ) ≤ x + 180) (le_of_lt hpi)]
  have hb2 : x * Real.pi / 180 / 2 < Real.pi := by
    nlinarith [mul_nonneg (by linarith : (0:ℝ) ≤ 180 - x) (le_of_lt hpi)]
  have h0 := (Real.sin_eq_zero_iff_of_lt_of_lt hb1 hb2).mp h
  have h3 : x * Real.pi = 0 := by linarith
  rcases mul_eq_zero.mp h3 with h4 | h4
  · exact h4
  · exact absurd h4 (ne_of_gt hpi)

/-- A vanishing `sin(radians x / 2)` forces `x ∈ {0, ±360}` when `|x| ≤ 360`. -/
lemma sin_radians_half_eq_zero_lon {x : ℝ} (hl : -360 ≤ x) (hu : x ≤ 360)
    (h : Real.sin (radians x / 2) = 0) : x = 0 ∨ x = 360 ∨ x = -360 := by
  unfold radians at h
  have hpi := Real.pi_pos
  obtain ⟨n, hn⟩ := Real.sin_eq_zero_iff.mp h
  have hx : x = (n : ℝ) * 360 := by
    have h3 : (x - (n : ℝ) * 360) * Real.pi = 0 := by linear_combination (-(360 : ℝ)) * hn
    rcases mul_eq_zero.mp h3 with h4 | h4
    · linarith
    · exact absurd h4 (ne_of_gt hpi)
  have hb1 : (-1 : ℝ) ≤ (n : ℝ) := by nlinarith
  have hb2 : (n : ℝ) ≤ 1 := by nlinarith
  have hn1 : (-1 : ℤ) ≤ n := by exact_mod_cast hb1
  have hn2 : n ≤ (1 : ℤ) := by exact_mod_cast hb2
  have hcase : n = -1 ∨ n = 0 ∨ n = 1 := by omega
  rcases hcase with h' | h' | h'
  · right; right; rw [hx, h']; norm_num
  · left; rw [hx, h']; norm_num
  · right; left; rw [hx, h']; norm_num

/-- A vanishing radian-latitude cosine forces a pole. -/
lemma cos_radians_eq_zero {lat : ℝ} (hl : -90 ≤ lat) (hu : lat ≤ 90)
    (h : Real.cos (radians lat) = 0) : lat = 90 ∨ lat = -90 := by
  have hpi := Real.pi_pos
  obtain ⟨k, hk⟩ := Real.cos_eq_zero_iff.mp h
  unfold radians at hk
  have hlat : lat = (2 * (k : ℝ) + 1) * 90 := by
    have h3 : (lat - (2 * (k : ℝ) + 1) * 90) * Real.pi = 0 := by
      linear_combination (180 : ℝ) * hk
    rcases mul_eq_zero.mp h3 with h4 | h4
    · linarith
    · exact absurd h4 (ne_of_gt hpi)
  have hb1 : (-1 : ℝ) ≤ 2 * (k : ℝ) + 1 := by nlinarith
  have hb2 : 2 * (k : ℝ) + 1 ≤ 1 := by nlinarith
  have hk1 : (-1 : ℤ) ≤ 2 * k + 1 := by exact_mod_cast hb1
  have hk2 : 2 * k + 1 ≤ (1 : ℤ) := by exact_mod_cast hb2
  have hcase : k = -1 ∨ k = 0 := by omega
  rcases hcase with h' | h'
  · right; rw [hlat, h']; norm_num
  · left; rw [hlat, h']; norm_num

/-- For valid coordinates, `hav_a` vanishes exactly on physically
coincident points: equal latitudes and (equal longitudes, or a pole,
or longitudes differing by a full turn). -/
lemma hav_a_eq_zero_iff {lat1 lon1 lat2 lon2 : ℝ}
    (h1 : -90 ≤ lat1) (h2 : lat1 ≤ 90) (h3 : -90 ≤ lat2) (h4 : lat2 ≤ 90)
    (h5 : -180 ≤ lon1) (h6 : lon1 ≤ 180) (h7 : -180 ≤ lon2) (h8 : lon2 ≤ 180) :
    hav_a lat1 lon1 lat2 lon2 = 0 ↔
      lat1 = lat2 ∧ (lon1 = lon2 ∨ lat1 = 90 ∨ lat1 = -90 ∨
        lon2 - lon1 = 360 ∨ lon2 - lon1 = -360) := by
  have hc1 := cos_radians_nonneg h1 h2
  have hc2 := cos_radians_nonneg h3 h4
  constructor
  · intro h
    unfold hav_a at h
    have hsq1 : Real.sin (radians (lat2 - lat1) / 2) ^ 2 = 0 := by
      nlinarith [sq_nonneg (Real.sin (radians (lat2 - lat1) / 2)),
        mul_nonneg (mul_nonneg hc1 hc2) (sq_nonneg (Real.sin (radians (lon2 - lon1) / 2)))]
    have hs1 : Real.sin (radians (lat2 - lat1) / 2) = 0 :=
      (pow_eq_zero_iff (by norm_num : (2:ℕ) ≠ 0)).mp hsq1
    have hdlat : lat2 - lat1 = 0 :=
      sin_radians_half_eq_zero_lat (by linarith) (by linarith) hs1
    have hlat : lat1 = lat2 := by linarith
    have ht2 : Real.cos (radians lat1) * Real.cos (radians lat2) *
        Real.sin (radians (lon2 - lon1) / 2) ^ 2 = 0 := by linarith
    rcases mul_eq_zero.mp ht2 with hcc | hs2
    · rcases mul_eq_zero.mp hcc with hcz | hcz
      · rcases cos_radians_eq_zero h1 h2 hcz with h90 | h90
        · exact ⟨hlat, Or.inr (Or.inl h90)⟩
        · exact ⟨hlat, Or.inr (Or.inr (Or.inl h90))⟩
      · rcases cos_radians_eq_zero h3 h4 hcz with h90 | h90
        · exact ⟨hlat, Or.inr (Or.inl (by linarith))⟩
        · exact ⟨hlat, Or.inr (Or.inr (Or.inl (by linarith)))⟩
    · have hs2' : Real.sin (radians (lon2 - lon1) / 2) = 0 :=
        (pow_eq_zero_iff (by norm_num : (2:ℕ) ≠ 0)).mp hs2
      rcases sin_radians_half_eq_zero_lon (by linarith) (by linarith) hs2' with hz | hz | hz
      · exact ⟨hlat, Or.inl (by linarith)⟩
      · exact ⟨hlat, Or.inr (Or.inr (Or.inr (Or.inl hz)))⟩
      · exact ⟨hlat, Or.inr (Or.inr (Or.inr (Or.inr hz)))⟩
  · rintro ⟨hlat, hcase⟩
    rcases hcase with hc | hc | hc | hc | hc
    · simp [hav_a, radians, hlat, hc]
    · have hl2 : lat2 = 90 := by linarith
      have hcz : Real.cos ((90 : ℝ) * Real.pi / 180) = 0 := by
        rw [show (90 : ℝ) * Real.pi / 180 = Real.pi / 2 by ring]
        exact Real.cos_pi_div_two
      simp [hav_a, radians, hc, hl2, hcz]
    · have hl2 : lat2 = -90 := by linarith
      have hcz : Real.cos (-(90 * Real.pi) / 180) = 0 := by
        rw [show -((90 : ℝ) * Real.pi) / 180 = -(Real.pi / 2) by ring, Real.cos_neg]
        exact Real.cos_pi_div_two
      simp [hav_a, radians, hc, hl2, hcz]
    · have hsz : Real.sin ((lon2 - lon1) * Real.pi / 180 / 2) = 0 := by
        rw [hc, show (360 : ℝ) * Real.pi / 180 / 2 = Real.pi by ring]
        exact Real.sin_pi
      simp [hav_a, radians, hlat, hsz]
    · have hsz : Real.sin ((lon2 - lon1) * Real.pi / 180 / 2) = 0 := by
        rw [hc, show (-360 : ℝ) * Real.pi / 180 / 2 = -Real.pi by ring, Real.sin_neg,
          Real.sin_pi]
        norm_num
      simp [hav_a, radians, hlat, hsz]

/-- C9 counterexample: the two distinct valid coordinate pairs
`(90, 0)` and `(90, 90)` (both at the north pole) have haversine
distance exactly 0, yet they do not coincide as coordinate pairs. -/
theorem haversine_zero_at_pole :
    calculate_distance_haversine 90 0 90 90 = 0 ∧ (0 : ℝ) ≠ 90 := by
  constructor
  · have hcz : Real.cos ((90 : ℝ) * Real.pi / 180) = 0 := by
      rw [show (90 : ℝ) * Real.pi / 180 = Real.pi / 2 by ring]
      exact Real.cos_pi_div_two
    have ha : hav_a 90 0 90 90 = 0 := by
      simp [hav_a, radians, hcz]
    unfold calculate_distance_haversine
    rw [ha]
    exact (haversine_core_eq_zero_iff le_rfl).mpr rfl
  · norm_num

/-- C9 (amended): the haversine distance is symmetric and vanishes on
`(a, a)` for all inputs; for valid coordinates it vanishes exactly on
physically coincident points — equal latitudes together with equal
longitudes, a pole (latitude ±90), or longitudes differing by 360. -/
theorem haversine_distance_properties :
    (∀ lat1 lon1 lat2 lon2 : ℝ,
      calculate_distance_haversine lat1 lon1 lat2 lon2 =
        calculate_distance_haversine lat2 lon2 lat1 lon1) ∧
    (∀ lat lon : ℝ, calculate_distance_haversine lat lon lat lon = 0) ∧
    (∀ lat1 lon1 lat2 lon2 : ℝ, -90 ≤ lat1 → lat1 ≤ 90 → -90 ≤ lat2 → lat2 ≤ 90 →
      -180 ≤ lon1 → lon1 ≤ 180 → -180 ≤ lon2 → lon2 ≤ 180 →
      (calculate_distance_haversine lat1 lon1 lat2 lon2 = 0 ↔
        lat1 = lat2 ∧ (lon1 = lon2 ∨ lat1 = 90 ∨ lat1 = -90 ∨
          lon2 - lon1 = 360 ∨ lon2 - lon1 = -360))) := by
  refine ⟨?_, haversine_self, ?_⟩
  · intro lat1 lon1 lat2 lon2
    simp only [calculate_distance_haversine]
    rw [hav_a_comm lat1 lon1 lat2 lon2]
  · intro lat1 lon1 lat2 lon2 h1 h2 h3 h4 h5 h6 h7 h8
    unfold calculate_distance_haversine
    rw [haversine_core_eq_zero_iff (hav_a_nonneg h1 h2 h3 h4)]
    exact hav_a_eq_zero_iff h1 h2 h3 h4 h5 h6 h7 h8

/-- Witness for C9's amended theorem at coincident points `(0,0)`. -/
theorem haversine_distance_properties_witness :
    calculate_distance_haversine 0 0 0 0 = 0 :=
  (haversine_distance_properties.2.2 0 0 0 0 (by norm_num) (by norm_num) (by norm_num)
    (by norm_num) (by norm_num) (by norm_num) (by norm_num) (by norm_num)).mpr
    ⟨rfl, Or.inl rfl⟩

/-- C8: `calculate_elevation_angle` returns 0 for coincident points;
for distinct points it is `degrees(atan((Δh - d²/(2·6371000)) / d))`
with `d` the haversine ground distance; and for fixed locations with
`d > 0` it is strictly increasing in the target altitude. -/
theorem elevation_angle_properties :
    (∀ lat lon h1 h2 : ℝ, calculate_elevation_angle lat lon h1 lat lon h2 = 0) ∧
    (∀ lat1 lon1 h1 lat2 lon2 h2 : ℝ,
      calculate_distance_haversine lat1 lon1 lat2 lon2 ≠ 0 →
      calculate_elevation_angle lat1 lon1 h1 lat2 lon2 h2 =
        Real.arctan ((h2 - h1 -
            (calculate_distance_haversine lat1 lon1 lat2 lon2) ^ 2 / (2 * 6371000)) /
          calculate_distance_haversine lat1 lon1 lat2 lon2) * 180 / Real.pi) ∧
    (∀ lat1 lon1 h1 lat2 lon2 hA hB : ℝ,
      0 < calculate_distance_haversine lat1 lon1 lat2 lon2 → hA < hB →
      calculate_elevation_angle lat1 lon1 h1 lat2 lon2 hA <
        calculate_elevation_angle lat1 lon1 h1 lat2 lon2 hB) := by
  refine ⟨?_, ?_, ?_⟩
  · intro lat lon h1 h2
    simp [calculate_elevation_angle, haversine_self]
  · intro lat1 lon1 h1 lat2 lon2 h2 hd
    simp only [calculate_elevation_angle]
    rw [if_neg hd]
  · intro lat1 lon1 h1 lat2 lon2 hA hB hd hlt
    simp only [calculate_elevation_angle]
    rw [if_neg (ne_of_gt hd), if_neg (ne_of_gt hd)]
    have harg : (hA - h1 - (calculate_distance_haversine lat1 lon1 lat2 lon2) ^ 2 /
          (2 * 6371000)) / calculate_distance_haversine lat1 lon1 lat2 lon2 <
        (hB - h1 - (calculate_distance_haversine lat1 lon1 lat2 lon2) ^ 2 /
          (2 * 6371000)) / calculate_distance_haversine lat1 lon1 lat2 lon2 :=
      (div_lt_div_right hd).mpr (by linarith)
    have hat := Real.arctan_strictMono harg
    have h180 : Real.arctan ((hA - h1 - (calculate_distance_haversine lat1 lon1 lat2
          lon2) ^ 2 / (2 * 6371000)) / calculate_distance_haversine lat1 lon1 lat2 lon2) *
          180 <
        Real.arctan ((hB - h1 - (calculate_distance_haversine lat1 lon1 lat2 lon2) ^ 2 /
          (2 * 6371000)) / calculate_distance_haversine lat1 lon1 lat2 lon2) * 180 := by
      linarith
    exact (div_lt_div_right Real.pi_pos).mpr h180

/-- The haversine distance between the antipodal equator points
`(0,0)` and `(0,180)` is `6371000·π`. -/
lemma haversine_antipodal : calculate_distance_haversine 0 0 0 180 = 6371000 * Real.pi := by
  have ha : hav_a 0 0 0 180 = 1 := by
    unfold hav_a radians
    rw [show ((0 : ℝ) - 0) * Real.pi / 180 / 2 = 0 by ring,
        show ((0 : ℝ)) * Real.pi / 180 = 0 by ring,
        show ((180 : ℝ) - 0) * Real.pi / 180 / 2 = Real.pi / 2 by ring,
        Real.sin_zero, Real.cos_zero, Real.sin_pi_div_two]
    norm_num
  simp only [calculate_distance_haversine]
  rw [ha, Real.sqrt_one, show (1 : ℝ) - 1 = 0 by ring, Real.sqrt_zero, atan2]
  norm_num
  ring

/-- Witness for C8: distinct points with positive distance and two
target altitudes 0 < 1. -/
theorem elevation_angle_properties_witness :
    0 < calculate_distance_haversine 0 0 0 180 ∧
    calculate_elevation_angle 0 0 0 0 180 0 < calculate_elevation_angle 0 0 0 0 180 1 := by
  have hd : 0 < calculate_distance_haversine 0 0 0 180 := by
    rw [haversine_antipodal]
    positivity
  exact ⟨hd, elevation_angle_properties.2.2 0 0 0 0 180 0 1 hd (by norm_num)⟩

end ARPathfinder
